import Mathlib

/-!
Verification of the mediasoup media-routing core (Consumer, RtpSender/VP8
payload descriptor, Room fan-out) against its natural-language specification.

The definitions below are shallow embeddings of the C++ sources:
  - RTC::Consumer            (worker/src/RTC/Consumer.cpp)
  - RTC::RtpSender and RTC::Codecs::VP8 (worker/src/RTC/RtpSender.cpp)
  - RTC::Room                (Room.cpp)
Machine integers are modelled as Nat with explicit reduction modulo 2^16
(sequence numbers, VP8 pictureId) and 2^32 (RTP timestamps).
-/

/-! ## Serial-number arithmetic (RFC 1982)

The spec defines wrap comparison by: IsHigher(a, b) is true iff
((a - b) mod 2^W) lies in the lower half.  `n` below is the modulus 2^W. -/

/-- Wrap-aware difference (a - b) mod n of two values in [0, n). -/
def serialDelta (n a b : Nat) : Nat :=
  ((a % n) + n - (b % n)) % n

/-- RFC 1982 serial comparison: a is strictly newer than b in a W-bit
sequence space with modulus n = 2^W. -/
def isSeqHigherThan (n a b : Nat) : Bool :=
  decide (0 < serialDelta n a b ∧ serialDelta n a b < n / 2)

/-! ## Simulcast profiles

`RTC::RtpEncodingParameters::Profile` is the ordered enum
NONE < DEFAULT < LOW < MEDIUM < HIGH (NONE = "no profile available"). -/

inductive Profile where
  | NONE
  | DEFAULT
  | LOW
  | MEDIUM
  | HIGH
deriving DecidableEq

/-- Numeric value of the Profile enum (the std::set ordering key). -/
def Profile.toNat : Profile → Nat
  | .NONE => 0
  | .DEFAULT => 1
  | .LOW => 2
  | .MEDIUM => 3
  | .HIGH => 4

/-! The Consumer keeps `std::set<Profile> profiles`.  A std::set is
determined by membership; we model it as a duplicate-free list and define
the iterator operations the code uses by their standard-library meaning:
`*crbegin()` is the greatest element, `*lower_bound(p)` is the smallest
element that is not less than p.  Both dereferences are partial: on an
empty set (crbegin) or when no element is ≥ p (lower_bound returns the
end iterator) the result is `Option.none`, modelling the invalid
dereference. -/

/-- Greatest element of the set: the element `*crbegin()` dereferences. -/
def profSetMax (l : List Profile) : Option Profile :=
  l.foldl
    (fun acc p =>
      match acc with
      | Option.none => some p
      | some q => some (if q.toNat < p.toNat then p else q))
    Option.none

/-- Smallest element that is ≥ pref: the element `*lower_bound(pref)`
dereferences (`Option.none` models the end iterator). -/
def profSetLowerBound (pref : Profile) (l : List Profile) : Option Profile :=
  l.foldl
    (fun acc p =>
      if pref.toNat ≤ p.toNat then
        match acc with
        | Option.none => some p
        | some q => some (if p.toNat < q.toNat then p else q)
      else acc)
    Option.none

/-- The selection performed by Consumer::RecalculateEffectiveProfile:
if there is no preferred profile take `*crbegin()` (the best available),
otherwise take `*lower_bound(preferredProfile)`. -/
def recalcSelect (preferred : Profile) (profiles : List Profile) : Option Profile :=
  if preferred = Profile.NONE then profSetMax profiles
  else profSetLowerBound preferred profiles

/-- The profile-management slice of the Consumer state, with the emitted
"effectiveprofilechange" notifications recorded. -/
structure ProfState where
  preferredProfile : Profile
  effectiveProfile : Profile
  profiles : List Profile
  syncRequired : Bool
  notifications : List Profile
deriving DecidableEq

/-- Consumer::RecalculateEffectiveProfile.  `Option.none` models the
undefined dereference of an invalid iterator (empty set / end iterator). -/
def recalculateEffectiveProfile (s : ProfState) : Option ProfState :=
  match recalcSelect s.preferredProfile s.profiles with
  | Option.none => Option.none
  | some newProfile =>
    if newProfile = s.effectiveProfile then some s
    else
      some { s with
        effectiveProfile := newProfile
        notifications := s.notifications ++ [newProfile]
        syncRequired := true }

/-- Consumer::AddProfile: drop the initial {NONE} sentinel, insert, and
recalculate. -/
def addProfile (s : ProfState) (p : Profile) : Option ProfState :=
  let profs :=
    if s.profiles = [Profile.NONE] then ([] : List Profile) else s.profiles
  let profs := if profs.contains p then profs else profs ++ [p]
  recalculateEffectiveProfile { s with profiles := profs }

/-- Consumer::RemoveProfile: erase and recalculate. -/
def removeProfile (s : ProfState) (p : Profile) : Option ProfState :=
  recalculateEffectiveProfile
    { s with profiles := s.profiles.filter (fun q => q ≠ p) }

/-- Consumer::SetPreferredProfile: store the preference and recalculate. -/
def setPreferredProfile (s : ProfState) (p : Profile) : Option ProfState :=
  if s.preferredProfile = p then some s
  else recalculateEffectiveProfile { s with preferredProfile := p }

/-! ## Consumer::SendRtpPacket

The per-packet forwarding path of RTC::Consumer.  The packet header
fields the consumer reads and rewrites (SSRC, sequence number,
timestamp, payload type) are modelled explicitly; the RtpStreamSend the
packet is fed to is modelled from the spec (section 4.3): it stores the
emitted packet in its retransmission ring and does not refuse it, so the
transmit branch is taken.  Transmissions over the transport are recorded
in `transmittedPackets` (the transmitted-data counter is its length). -/

/-- The RTP header fields of a borrowed packet. -/
structure RtpPacketHdr where
  ssrc : Nat
  seq : Nat
  timestamp : Nat
  payloadType : Nat
deriving DecidableEq

/-- The slice of RTC::Consumer state read and written by SendRtpPacket. -/
structure ConsumerState where
  enabled : Bool
  paused : Bool
  sourcePaused : Bool
  supportedCodecPayloadTypes : List Nat
  effectiveProfile : Profile
  syncRequired : Bool
  seqNum : Nat
  rtpTimestamp : Nat
  lastRecvSeqNum : Nat
  lastRecvRtpTimestamp : Nat
  outputSsrc : Nat
  transmittedPackets : List RtpPacketHdr
deriving DecidableEq

/-- Consumer::IsPaused(): paused locally or at the source. -/
def ConsumerState.isPaused (s : ConsumerState) : Bool :=
  s.paused || s.sourcePaused

/-- The shared tail of SendRtpPacket once a packet is forwarded: rewrite
the header to the consumer values, feed the packet to the RtpStreamSend,
transmit, and restore the borrowed packet. -/
def emitPacket (s : ConsumerState) (packet : RtpPacketHdr)
    (seqNum' rtpTimestamp' : Nat) : ConsumerState × RtpPacketHdr :=
  let wire : RtpPacketHdr :=
    { ssrc := s.outputSsrc, seq := seqNum', timestamp := rtpTimestamp',
      payloadType := packet.payloadType }
  let s' : ConsumerState :=
    { s with
      syncRequired := false
      seqNum := seqNum'
      rtpTimestamp := rtpTimestamp'
      lastRecvSeqNum := packet.seq
      lastRecvRtpTimestamp := packet.timestamp
      transmittedPackets := s.transmittedPackets ++ [wire] }
  let restored : RtpPacketHdr :=
    { ssrc := packet.ssrc, seq := packet.seq,
      timestamp := packet.timestamp, payloadType := packet.payloadType }
  (s', restored)

/-- Consumer::SendRtpPacket(packet, profile).  `now` is the wall-clock
millisecond time DepLibUV::GetTime() returns, cast to uint32.  Returns
the new consumer state and the state of the borrowed packet object when
the call returns. -/
def sendRtpPacket (s : ConsumerState) (packet : RtpPacketHdr)
    (profile : Profile) (now : Nat) : ConsumerState × RtpPacketHdr :=
  if s.enabled = false then (s, packet)
  else if s.isPaused then (s, packet)
  else if packet.payloadType ∉ s.supportedCodecPayloadTypes then (s, packet)
  else if profile ≠ s.effectiveProfile then (s, packet)
  else if s.syncRequired then
    emitPacket s packet ((s.seqNum + 1) % 65536)
      (if now % 4294967296 > s.rtpTimestamp then now % 4294967296
       else s.rtpTimestamp)
  else
    emitPacket s packet
      ((s.seqNum +
        ((packet.seq % 65536) + 65536 - (s.lastRecvSeqNum % 65536)) % 65536) % 65536)
      ((s.rtpTimestamp +
        ((packet.timestamp % 4294967296) + 4294967296 -
          (s.lastRecvRtpTimestamp % 4294967296)) % 4294967296) % 4294967296)

/-- The guard conditions of SendRtpPacket steps 1-3 (spec section 4.6):
Enabled, not paused, supported payload type, matching profile. -/
def passesChecks (s : ConsumerState) (packet : RtpPacketHdr)
    (profile : Profile) : Bool :=
  s.enabled && !s.isPaused &&
    s.supportedCodecPayloadTypes.contains packet.payloadType &&
    (profile == s.effectiveProfile)

/-! ### Runs of a Consumer

Events a Consumer observes between transmissions: packet deliveries and
the effective-profile change performed by RecalculateEffectiveProfile
(which records the new profile and raises `syncRequired`). -/

inductive ConsumerEvent where
  | packet (p : RtpPacketHdr) (profile : Profile) (now : Nat)
  | recalcProfile (newProfile : Profile)

/-- One event applied to the consumer state.  A profile change mirrors
the tail of RecalculateEffectiveProfile on the fields SendRtpPacket
reads: new effective profile and `syncRequired := true` when the
profile actually changes. -/
def applyEvent (s : ConsumerState) (e : ConsumerEvent) : ConsumerState :=
  match e with
  | .packet p profile now => (sendRtpPacket s p profile now).1
  | .recalcProfile newProfile =>
    if newProfile = s.effectiveProfile then s
    else { s with effectiveProfile := newProfile, syncRequired := true }

/-- A whole run of events. -/
def runEvents (s : ConsumerState) (es : List ConsumerEvent) : ConsumerState :=
  es.foldl applyEvent s

/-- Output timestamp b is serially at-or-after a (delta in the upper
half reads as a decrease mod 2^32). -/
def tsNotLower (b a : Nat) : Bool :=
  decide (serialDelta 4294967296 b a < 2147483648)

/-- The emitted-stream relation of spec section 8 invariant 1: the next
transmitted packet has a strictly higher sequence number mod 2^16 and a
serially not-lower timestamp mod 2^32. -/
def outStep (a b : RtpPacketHdr) : Bool :=
  isSeqHigherThan 65536 b.seq a.seq && tsNotLower b.timestamp a.timestamp

/-- The claimed invariant on a transmission log. -/
def emittedMonotone (l : List RtpPacketHdr) : Prop :=
  List.Chain' (fun a b => outStep a b = true) l

instance : DecidableRel (fun a b : RtpPacketHdr => outStep a b = true) :=
  fun _ _ => inferInstance

/-- The consumer fields holding uint16/uint32 values are in range. -/
def stateWF (s : ConsumerState) : Bool :=
  decide (s.seqNum < 65536 ∧ s.rtpTimestamp < 4294967296 ∧
    s.lastRecvSeqNum < 65536 ∧ s.lastRecvRtpTimestamp < 4294967296)

/-- An event is in-order for the current state: a forwarded packet
carries uint16/uint32 header values and, when it is consumed on the
delta path (no sync pending), it moves the received sequence serially
forward by less than half the space and the received timestamp serially
not backwards; when it is consumed on the sync path the wall clock read
is serially at-or-after the current output timestamp. -/
def eventOk (s : ConsumerState) (e : ConsumerEvent) : Bool :=
  match e with
  | .packet p profile now =>
    !passesChecks s p profile ||
      (decide (p.seq < 65536) && decide (p.timestamp < 4294967296) &&
        (if s.syncRequired then tsNotLower (now % 4294967296) s.rtpTimestamp
         else
           isSeqHigherThan 65536 p.seq s.lastRecvSeqNum &&
             tsNotLower p.timestamp s.lastRecvRtpTimestamp))
  | .recalcProfile _ => true

/-- Every event of the run is in-order for the state it meets. -/
def goodRun (s : ConsumerState) : List ConsumerEvent → Bool
  | [] => true
  | e :: es => eventOk s e && goodRun (applyEvent s e) es

/-! ## VP8 payload descriptor (RTC::Codecs::VP8)

The buffer is a list of bytes (Nat values below 256); `data.getD i 0` is
data[i].  Bit operations of the C++ are rendered as division/modulus by
powers of two: (byte >> k) & 1 is byte / 2^k % 2, byte & (2^k - 1) is
byte % 2^k. -/

/-- The parsed VP8 payload descriptor (RTC::Codecs::VP8::PayloadDescriptor).
Fields default to zero/false as in the class definition. -/
structure PayloadDescriptor where
  extended : Nat := 0
  nonReference : Nat := 0
  start : Nat := 0
  partitionIndex : Nat := 0
  i : Nat := 0
  l : Nat := 0
  t : Nat := 0
  k : Nat := 0
  pictureId : Nat := 0
  tl0PictureIndex : Nat := 0
  tlIndex : Nat := 0
  y : Nat := 0
  keyIndex : Nat := 0
  isKeyFrame : Bool := false
  hasPictureId : Bool := false
  hasOneBytePictureId : Bool := false
  hasTwoBytesPictureId : Bool := false
  hasTl0PictureIndex : Bool := false
  hasTlIndex : Bool := false
deriving DecidableEq

/-- Tail of VP8::Parse: the key-frame test.  `o` is the offset of the
last descriptor byte consumed; the payload header byte is data[o+1] and
the packet is a key frame when it exists, start = 1, partitionIndex = 0
and its low bit is clear. -/
def vp8KeyFrameCheck (data : List Nat) (o : Nat) (d : PayloadDescriptor) :
    Option PayloadDescriptor :=
  if o + 2 ≤ data.length ∧ d.start = 1 ∧ d.partitionIndex = 0 ∧
      data.getD (o + 1) 0 % 2 = 0 then
    some { d with isKeyFrame := true }
  else some d

/-- VP8::Parse, TL/KEYIDX byte: present when T or K is set. -/
def vp8ParseTlk (data : List Nat) (o : Nat) (d : PayloadDescriptor) :
    Option PayloadDescriptor :=
  if d.t = 1 ∨ d.k = 1 then
    if data.length < o + 2 then Option.none
    else
      vp8KeyFrameCheck data (o + 1)
        { d with hasTlIndex := true, tlIndex := data.getD (o + 1) 0 / 64 % 4,
                 y := data.getD (o + 1) 0 / 32 % 2,
                 keyIndex := data.getD (o + 1) 0 % 32 }
  else vp8KeyFrameCheck data o d

/-- VP8::Parse, TL0PICIDX byte: present when L is set. -/
def vp8ParseTl0 (data : List Nat) (o : Nat) (d : PayloadDescriptor) :
    Option PayloadDescriptor :=
  if d.l = 1 then
    if data.length < o + 2 then Option.none
    else
      vp8ParseTlk data (o + 1)
        { d with hasTl0PictureIndex := true,
                 tl0PictureIndex := data.getD (o + 1) 0 }
  else vp8ParseTlk data o d

/-- VP8::Parse, PictureID: present when I is set; one byte when its top
bit is clear, two bytes (15-bit value) when set. -/
def vp8ParsePictureId (data : List Nat) (d : PayloadDescriptor) :
    Option PayloadDescriptor :=
  if d.i = 1 then
    if data.length < 3 then Option.none
    else if data.getD 2 0 / 128 % 2 = 1 then
      if data.length < 4 then Option.none
      else
        vp8ParseTl0 data 3
          { d with hasPictureId := true, hasTwoBytesPictureId := true,
                   pictureId := data.getD 2 0 % 128 * 256 + data.getD 3 0 }
    else
      vp8ParseTl0 data 2
        { d with hasPictureId := true, hasOneBytePictureId := true,
                 pictureId := data.getD 2 0 % 128 }
  else vp8ParseTl0 data 1 d

/-- VP8::Parse(data, len): the descriptor, or `Option.none` on a
truncated or non-extended descriptor. -/
def vp8Parse (data : List Nat) : Option PayloadDescriptor :=
  if data.length < 1 then Option.none
  else if data.getD 0 0 / 128 % 2 = 0 then Option.none
  else if data.length < 2 then Option.none
  else
    vp8ParsePictureId data
      { extended := data.getD 0 0 / 128 % 2,
        nonReference := data.getD 0 0 / 32 % 2,
        start := data.getD 0 0 / 16 % 2, partitionIndex := data.getD 0 0 % 8,
        i := data.getD 1 0 / 128 % 2, l := data.getD 1 0 / 64 % 2,
        t := data.getD 1 0 / 32 % 2, k := data.getD 1 0 / 16 % 2 }

/-- One pictureId-encoding step of Encode: the buffer after the
pictureId bytes are written and the offset just past them. -/
def vp8EncodePid (d : PayloadDescriptor) (pictureId : Nat)
    (data : List Nat) : List Nat × Nat :=
  if d.i = 1 then
    if d.hasTwoBytesPictureId then
      (((data.set 2 (Nat.lor (pictureId % 65536 / 256) 128)).set 3
        (pictureId % 65536 % 256)), 4)
    else if d.hasOneBytePictureId then
      ((data.set 2 (pictureId % 256)), 3)
    else (data, 2)
  else (data, 2)

/-- VP8::PayloadDescriptor::Encode(data, pictureId, tl0PictureIndex):
write the given pictureId and tl0PictureIndex into the descriptor
region, in the layout recorded by the descriptor's flags.  The pictureId
argument is a uint16, the tl0PictureIndex argument a uint8. -/
def vp8Encode (d : PayloadDescriptor) (pictureId tl0PictureIndex : Nat)
    (data : List Nat) : List Nat :=
  if d.extended ≠ 1 then data
  else if d.l = 1 then
    (vp8EncodePid d pictureId data).1.set (vp8EncodePid d pictureId data).2
      (tl0PictureIndex % 256)
  else (vp8EncodePid d pictureId data).1

/-- VP8::PayloadDescriptor::Restore: Encode with the originally parsed
values. -/
def vp8Restore (d : PayloadDescriptor) (data : List Nat) : List Nat :=
  vp8Encode d d.pictureId d.tl0PictureIndex data

/-! ## SeqManager and the VP8 Process handler -/

/-- Modelled from the spec: `RTC::SeqManager` is referenced by
VP8::PayloadDescriptorHandler::Process but its source is not part of the
repository snapshot; this model follows spec section 4.1.  `Sync(base)`
re-anchors the mapping so future Input calls produce outputs beginning
at base + 1; `Drop(input)` marks the input dropped without allocating an
output slot; `Input(input)` rejects previously dropped inputs and
otherwise allocates the next output, so the outputs of consecutive
accepted inputs differ by exactly 1 (mod the width) — spec section 8,
invariant 3.  `n` is the modulus of the sequence space (2^16 for
pictureId, 2^8 for tl0PictureIndex). -/
structure SeqManager where
  maxInput : Nat := 0
  maxOutput : Nat := 0
  dropped : List Nat := []
deriving DecidableEq

/-- Modelled from the spec: SeqManager::Sync(input). -/
def SeqManager.sync (_m : SeqManager) (n input : Nat) : SeqManager :=
  { maxInput := input % n, maxOutput := input % n, dropped := [] }

/-- Modelled from the spec: SeqManager::Drop(input). -/
def SeqManager.drop (m : SeqManager) (n input : Nat) : SeqManager :=
  { m with
    dropped := input % n :: m.dropped
    maxInput :=
      if isSeqHigherThan n input m.maxInput then input % n else m.maxInput }

/-- Modelled from the spec: SeqManager::Input(input, output).  Returns
the updated manager, the output value and the accepted flag. -/
def SeqManager.input (m : SeqManager) (n input : Nat) :
    SeqManager × Nat × Bool :=
  if (input % n) ∈ m.dropped then (m, 0, false)
  else
    let output := (m.maxOutput + 1) % n
    ({ m with
        maxOutput := output
        maxInput :=
          if isSeqHigherThan n input m.maxInput then input % n
          else m.maxInput },
      output, true)

/-- RTC::Codecs::VP8::EncodingContext: target/current temporal layer and
the two sequence managers (pictureId is 16-bit, tl0PictureIndex 8-bit). -/
structure EncodingContext where
  targetTemporalLayer : Nat
  currentTemporalLayer : Nat
  pictureIdManager : SeqManager
  tl0PictureIndexManager : SeqManager
  syncRequired : Bool
deriving DecidableEq

/-- The sync block at the top of Process: when the context requires sync
and the packet carries both indices, re-anchor both managers one below
the packet's values (uint16/uint8 subtraction) and clear the flag. -/
def vp8SyncStep (ctx : EncodingContext) (d : PayloadDescriptor) :
    EncodingContext :=
  if ctx.syncRequired && d.hasPictureId && d.hasTl0PictureIndex then
    { ctx with
      pictureIdManager :=
        ctx.pictureIdManager.sync 65536 ((d.pictureId % 65536) + 65536 - 1)
      tl0PictureIndexManager :=
        ctx.tl0PictureIndexManager.sync 256 ((d.tl0PictureIndex % 256) + 256 - 1)
      syncRequired := false }
  else ctx

/-- On a key frame Process adopts the target temporal layer. -/
def vp8KeyframeStep (ctx : EncodingContext) (d : PayloadDescriptor) :
    EncodingContext :=
  if d.isKeyFrame then
    { ctx with currentTemporalLayer := ctx.targetTemporalLayer }
  else ctx

/-- Both managers record the packet's indices as dropped (the two Drop
calls Process performs before returning false). -/
def dropBoth (ctx : EncodingContext) (d : PayloadDescriptor) :
    EncodingContext :=
  { ctx with
    pictureIdManager := ctx.pictureIdManager.drop 65536 d.pictureId
    tl0PictureIndexManager :=
      ctx.tl0PictureIndexManager.drop 256 d.tl0PictureIndex }

/-- Tail of the Input section: fix up the current temporal layer and
encode the remapped pictureId and tl0PictureIndex into the payload. -/
def vp8ProcessTail (ctx : EncodingContext) (d : PayloadDescriptor)
    (data : List Nat) (pidOut tl0Out : Nat) :
    Bool × EncodingContext × List Nat :=
  let ctxC :=
    if d.tlIndex > ctx.currentTemporalLayer then
      { ctx with currentTemporalLayer := d.tlIndex }
    else ctx
  let ctxD :=
    if ctxC.currentTemporalLayer > ctxC.targetTemporalLayer then
      { ctxC with currentTemporalLayer := ctxC.targetTemporalLayer }
    else ctxC
  let data1 :=
    if d.hasPictureId && d.hasTl0PictureIndex then
      vp8Encode d pidOut tl0Out data
    else data
  (true, ctxD, data1)

/-- Second half of the Input section: feed tl0PictureIndex through its
manager (when the packet carries one) and fail on a dropped value. -/
def vp8ProcessInputsTl0 (ctx : EncodingContext) (d : PayloadDescriptor)
    (data : List Nat) (pidOut : Nat) : Bool × EncodingContext × List Nat :=
  if d.hasTl0PictureIndex then
    if (ctx.tl0PictureIndexManager.input 256 d.tl0PictureIndex).2.2 = false then
      (false,
        { ctx with
          tl0PictureIndexManager :=
            (ctx.tl0PictureIndexManager.input 256 d.tl0PictureIndex).1 },
        data)
    else
      vp8ProcessTail
        { ctx with
          tl0PictureIndexManager :=
            (ctx.tl0PictureIndexManager.input 256 d.tl0PictureIndex).1 }
        d data pidOut
        (ctx.tl0PictureIndexManager.input 256 d.tl0PictureIndex).2.1
  else vp8ProcessTail ctx d data pidOut 0

/-- The Input section of Process: feed pictureId through its manager
(when the packet carries one), fail on a dropped value, then continue
with tl0PictureIndex. -/
def vp8ProcessInputs (ctx : EncodingContext) (d : PayloadDescriptor)
    (data : List Nat) : Bool × EncodingContext × List Nat :=
  if d.hasPictureId then
    if (ctx.pictureIdManager.input 65536 d.pictureId).2.2 = false then
      (false,
        { ctx with
          pictureIdManager := (ctx.pictureIdManager.input 65536 d.pictureId).1 },
        data)
    else
      vp8ProcessInputsTl0
        { ctx with
          pictureIdManager := (ctx.pictureIdManager.input 65536 d.pictureId).1 }
        d data (ctx.pictureIdManager.input 65536 d.pictureId).2.1
  else vp8ProcessInputsTl0 ctx d data 0

/-- The context Process works on after the sync block and key-frame
update. -/
def vp8PreCtx (ctx0 : EncodingContext) (d : PayloadDescriptor) :
    EncodingContext :=
  vp8KeyframeStep (vp8SyncStep ctx0 d) d

/-- VP8::PayloadDescriptorHandler::Process(context, data): sync step,
key-frame step, the temporal-layer filter (drop a packet above the
target layer, or above the current layer without the layer-sync bit),
then the Input section.  Returns the keep flag, the updated context and
the possibly rewritten payload bytes. -/
def vp8Process (ctx0 : EncodingContext) (d : PayloadDescriptor)
    (data : List Nat) : Bool × EncodingContext × List Nat :=
  if d.hasPictureId && d.hasTlIndex && d.hasTl0PictureIndex &&
      isSeqHigherThan 65536 d.pictureId
        (vp8PreCtx ctx0 d).pictureIdManager.maxInput &&
      decide (d.tlIndex > (vp8PreCtx ctx0 d).targetTemporalLayer) then
    (false, dropBoth (vp8PreCtx ctx0 d) d, data)
  else if d.hasPictureId && d.hasTlIndex && d.hasTl0PictureIndex &&
      isSeqHigherThan 65536 d.pictureId
        (vp8PreCtx ctx0 d).pictureIdManager.maxInput &&
      decide (d.tlIndex > (vp8PreCtx ctx0 d).currentTemporalLayer) &&
      decide (d.y = 0) then
    (false, dropBoth (vp8PreCtx ctx0 d) d, data)
  else vp8ProcessInputs (vp8PreCtx ctx0 d) d data

/-! ## Room fan-out (RTC::Room)

The router's receiver-to-senders map is an association list from
RtpReceiver id to the set (duplicate-free list) of subscribed RtpSender
ids.  `notifications` records the Channel notifications RtpSender::Close
emits and `closedSenders` records each invocation of RtpSender::Close. -/

structure RoomState where
  mapRtpReceiverRtpSenders : List (Nat × List Nat)
  notifications : List (Nat × String)
  closedSenders : List Nat
deriving DecidableEq

/-- Lookup of the fan-out map (std::unordered_map::find). -/
def roomMapLookup (m : List (Nat × List Nat)) (receiverId : Nat) :
    Option (List Nat) :=
  (m.find? (fun kv => kv.1 == receiverId)).map (fun kv => kv.2)

/-- Room::onPeerRtpSenderClosed: remove the closed sender from every
entry of the fan-out map. -/
def onPeerRtpSenderClosed (m : List (Nat × List Nat)) (senderId : Nat) :
    List (Nat × List Nat) :=
  m.map (fun kv => (kv.1, kv.2.filter (fun x => x ≠ senderId)))

/-- RtpSender::Close: emit the "close" notification, then notify the
listener, whose onPeerRtpSenderClosed unlinks the sender from the
fan-out map. -/
def rtpSenderClose (st : RoomState) (senderId : Nat) : RoomState :=
  { mapRtpReceiverRtpSenders :=
      onPeerRtpSenderClosed st.mapRtpReceiverRtpSenders senderId
    notifications := st.notifications ++ [(senderId, "close")]
    closedSenders := st.closedSenders ++ [senderId] }

/-- Room::onPeerRtpReceiverClosed: when the receiver is in the map, copy
its sender set, call Close on every sender of the copy, then erase the
receiver's entry. -/
def onPeerRtpReceiverClosed (st : RoomState) (receiverId : Nat) : RoomState :=
  match roomMapLookup st.mapRtpReceiverRtpSenders receiverId with
  | Option.none => st
  | some rtpSenders =>
    let st1 := rtpSenders.foldl rtpSenderClose st
    { st1 with
      mapRtpReceiverRtpSenders :=
        st1.mapRtpReceiverRtpSenders.filter (fun kv => kv.1 ≠ receiverId) }

/-! ## Control-plane request dispatch

Channel::Request::MethodId constructors referenced by the three
HandleRequest switches in the sources. -/

inductive MethodId where
  | ROOM_CLOSE
  | ROOM_DUMP
  | ROOM_CREATE_PEER
  | PEER_CLOSE
  | PEER_DUMP
  | PEER_SET_CAPABILITIES
  | PEER_CREATE_TRANSPORT
  | PEER_CREATE_RTP_RECEIVER
  | TRANSPORT_CLOSE
  | TRANSPORT_DUMP
  | TRANSPORT_SET_REMOTE_DTLS_PARAMETERS
  | RTP_RECEIVER_CLOSE
  | RTP_RECEIVER_DUMP
  | RTP_RECEIVER_RECEIVE
  | RTP_RECEIVER_SET_RTP_RAW_EVENT
  | RTP_RECEIVER_SET_RTP_OBJECT_EVENT
  | RTP_SENDER_DUMP
  | RTP_SENDER_SET_TRANSPORT
  | CONSUMER_DUMP
deriving DecidableEq

/-- The outcome a Channel::Request ends in. -/
inductive ChannelResponse where
  | accepted
  | rejected (reason : String)
  | forwardedToPeer (peerId : Nat)
deriving DecidableEq

/-- The `internal` fields of a request Room::HandleRequest reads. -/
structure ChannelRequest where
  peerId : Option Nat
  peerName : Option String
deriving DecidableEq

/-- Consumer::HandleRequest: CONSUMER_DUMP is accepted (ToJson mutates
nothing), anything else hits the default branch. -/
def consumerHandleRequest (s : ConsumerState) (m : MethodId) :
    ConsumerState × ChannelResponse :=
  if m = MethodId.CONSUMER_DUMP then (s, ChannelResponse.accepted)
  else (s, ChannelResponse.rejected "unknown method")

/-- The RtpSender fields a request could touch. -/
structure RtpSenderState where
  rtpSenderId : Nat
  available : Bool
  hasTransport : Bool
deriving DecidableEq

/-- RtpSender::HandleRequest: rtpSender_dump is accepted, anything else
hits the default branch. -/
def rtpSenderHandleRequest (s : RtpSenderState) (m : MethodId) :
    RtpSenderState × ChannelResponse :=
  if m = MethodId.RTP_SENDER_DUMP then (s, ChannelResponse.accepted)
  else (s, ChannelResponse.rejected "unknown method")

/-- The methods Room::HandleRequest recognises (handled directly or
forwarded to the target Peer). -/
def roomHandledMethods : List MethodId :=
  [MethodId.ROOM_CLOSE, MethodId.ROOM_DUMP, MethodId.ROOM_CREATE_PEER,
   MethodId.PEER_CLOSE, MethodId.PEER_DUMP, MethodId.PEER_SET_CAPABILITIES,
   MethodId.PEER_CREATE_TRANSPORT, MethodId.PEER_CREATE_RTP_RECEIVER,
   MethodId.TRANSPORT_CLOSE, MethodId.TRANSPORT_DUMP,
   MethodId.TRANSPORT_SET_REMOTE_DTLS_PARAMETERS,
   MethodId.RTP_RECEIVER_CLOSE, MethodId.RTP_RECEIVER_DUMP,
   MethodId.RTP_RECEIVER_RECEIVE, MethodId.RTP_RECEIVER_SET_RTP_RAW_EVENT,
   MethodId.RTP_RECEIVER_SET_RTP_OBJECT_EVENT, MethodId.RTP_SENDER_DUMP,
   MethodId.RTP_SENDER_SET_TRANSPORT]

/-- Room::HandleRequest over the peer-id table: close empties the room,
dump mutates nothing, createPeer validates and inserts, the peer-scoped
bucket resolves the target peer and forwards, and the default branch
rejects with "unknown method". -/
def roomHandleRequest (peers : List Nat) (req : ChannelRequest)
    (m : MethodId) : List Nat × ChannelResponse :=
  match m with
  | MethodId.ROOM_CLOSE => ([], ChannelResponse.accepted)
  | MethodId.ROOM_DUMP => (peers, ChannelResponse.accepted)
  | MethodId.ROOM_CREATE_PEER =>
    match req.peerId with
    | Option.none =>
      (peers, ChannelResponse.rejected "Request has not numeric .peerId field")
    | some pid =>
      if pid ∈ peers then (peers, ChannelResponse.rejected "Peer already exists")
      else
        match req.peerName with
        | Option.none =>
          (peers,
            ChannelResponse.rejected "Request has not string internal.peerName")
        | some _ => (peers ++ [pid], ChannelResponse.accepted)
  | MethodId.PEER_CLOSE | MethodId.PEER_DUMP | MethodId.PEER_SET_CAPABILITIES
  | MethodId.PEER_CREATE_TRANSPORT | MethodId.PEER_CREATE_RTP_RECEIVER
  | MethodId.TRANSPORT_CLOSE | MethodId.TRANSPORT_DUMP
  | MethodId.TRANSPORT_SET_REMOTE_DTLS_PARAMETERS
  | MethodId.RTP_RECEIVER_CLOSE | MethodId.RTP_RECEIVER_DUMP
  | MethodId.RTP_RECEIVER_RECEIVE | MethodId.RTP_RECEIVER_SET_RTP_RAW_EVENT
  | MethodId.RTP_RECEIVER_SET_RTP_OBJECT_EVENT | MethodId.RTP_SENDER_DUMP
  | MethodId.RTP_SENDER_SET_TRANSPORT =>
    match req.peerId with
    | Option.none =>
      (peers, ChannelResponse.rejected "Request has not numeric .peerId field")
    | some pid =>
      if pid ∈ peers then (peers, ChannelResponse.forwardedToPeer pid)
      else (peers, ChannelResponse.rejected "Peer does not exist")
  | _ => (peers, ChannelResponse.rejected "unknown method")

/-! ## Claims -/

/-- Concrete consumer profile state: producer offers LOW and HIGH, the
consumer prefers MEDIUM. -/
def c1State : ProfState :=
  { preferredProfile := Profile.MEDIUM, effectiveProfile := Profile.NONE,
    profiles := [Profile.LOW, Profile.HIGH], syncRequired := false,
    notifications := [] }

/-- C1: RecalculateEffectiveProfile is claimed (and its own comment
says) to pick the greatest profile ≤ preferredProfile, so that
afterwards effectiveProfile ≤ preferredProfile whenever profiles is not
{NONE} and preferredProfile is not NONE.  The code instead dereferences
std::set::lower_bound(preferredProfile), the SMALLEST element ≥
preferred: with profiles = {LOW, HIGH} and preferredProfile = MEDIUM it
selects HIGH > MEDIUM even though LOW (the greatest element ≤ MEDIUM) is
available. -/
theorem recalcEffectiveProfile_exceeds_preferred :
    (recalculateEffectiveProfile c1State).map ProfState.effectiveProfile =
      some Profile.HIGH ∧
    Profile.LOW ∈ c1State.profiles ∧
    Profile.LOW.toNat ≤ Profile.MEDIUM.toNat ∧
    ¬ Profile.HIGH.toNat ≤ Profile.MEDIUM.toNat ∧
    c1State.profiles ≠ [Profile.NONE] ∧
    c1State.preferredProfile ≠ Profile.NONE := by
  decide

/-- Fresh consumer: profiles holds only the NONE sentinel. -/
def c10State : ProfState :=
  { preferredProfile := Profile.NONE, effectiveProfile := Profile.NONE,
    profiles := [Profile.NONE], syncRequired := false, notifications := [] }

/-- Consumer whose only available profile is LOW. -/
def c10StateLow : ProfState :=
  { preferredProfile := Profile.NONE, effectiveProfile := Profile.LOW,
    profiles := [Profile.LOW], syncRequired := false, notifications := [] }

/-- C10: the dereference inside RecalculateEffectiveProfile is claimed
to always hit a valid element.  It does not: setting a preferred profile
above every available one makes lower_bound return the end iterator
(modelled `Option.none`), and removing the last remaining profile makes
crbegin dereference rend of an empty set. -/
theorem recalcEffectiveProfile_invalid_iterator :
    setPreferredProfile c10State Profile.HIGH = Option.none ∧
    removeProfile c10StateLow Profile.LOW = Option.none := by
  decide

/-- C3: SendRtpPacket returns the borrowed packet with its SSRC,
sequence number and timestamp restored to their entry values, on the
dropped paths (which never touch the packet) as well as on the forwarded
path (which rewrites and then restores them). -/
theorem sendRtpPacket_restores_packet (s : ConsumerState)
    (packet : RtpPacketHdr) (profile : Profile) (now : Nat) :
    (sendRtpPacket s packet profile now).2 = packet := by
  unfold sendRtpPacket emitPacket
  split_ifs <;> rfl

/-- C4: when the consumer is not enabled, or paused locally or at the
source, or the payload type is unsupported, or the profile does not
match the effective profile, SendRtpPacket changes nothing: no
transmission and no state update. -/
theorem sendRtpPacket_drop_checks_no_effect (s : ConsumerState)
    (packet : RtpPacketHdr) (profile : Profile) (now : Nat)
    (h : s.enabled = false ∨ s.paused = true ∨ s.sourcePaused = true ∨
      packet.payloadType ∉ s.supportedCodecPayloadTypes ∨
      profile ≠ s.effectiveProfile) :
    (sendRtpPacket s packet profile now).1 = s := by
  unfold sendRtpPacket
  rcases h with h | h | h | h | h <;> split_ifs <;>
    first
    | rfl
    | simp_all [ConsumerState.isPaused]

/-- Witness for C4 at a concrete paused consumer. -/
def c4State : ConsumerState :=
  { enabled := true, paused := true, sourcePaused := false,
    supportedCodecPayloadTypes := [100], effectiveProfile := Profile.DEFAULT,
    syncRequired := false, seqNum := 1000, rtpTimestamp := 5000,
    lastRecvSeqNum := 50, lastRecvRtpTimestamp := 700, outputSsrc := 2000,
    transmittedPackets := [] }

def c4Packet : RtpPacketHdr :=
  { ssrc := 1000, seq := 51, timestamp := 4300, payloadType := 100 }

theorem sendRtpPacket_drop_checks_no_effect_witness :
    (sendRtpPacket c4State c4Packet Profile.DEFAULT 99).1 = c4State :=
  sendRtpPacket_drop_checks_no_effect c4State c4Packet Profile.DEFAULT 99
    (Or.inr (Or.inl rfl))

/-- C5: a forwarded packet that meets a pending sync advances the output
sequence number by exactly one (uint16), advances the output timestamp
to the maximum of its current value and the wall-clock value, and clears
syncRequired. -/
theorem sendRtpPacket_sync_path (s : ConsumerState) (packet : RtpPacketHdr)
    (profile : Profile) (now : Nat)
    (hpass : passesChecks s packet profile = true)
    (hsync : s.syncRequired = true) :
    (sendRtpPacket s packet profile now).1.seqNum = (s.seqNum + 1) % 65536 ∧
    (sendRtpPacket s packet profile now).1.rtpTimestamp =
      max s.rtpTimestamp (now % 4294967296) ∧
    (sendRtpPacket s packet profile now).1.syncRequired = false := by
  simp only [passesChecks, Bool.and_eq_true, Bool.not_eq_true',
    beq_iff_eq, decide_eq_true_eq] at hpass
  obtain ⟨⟨⟨hen, hpa⟩, hmem⟩, hprof⟩ := hpass
  replace hmem := List.mem_of_elem_eq_true hmem
  unfold sendRtpPacket emitPacket
  rw [if_neg (by simp [hen]), if_neg (by simp [hpa]), if_neg (by simp [hmem]),
    if_neg (by simp [hprof])]
  simp only [hsync, if_true]
  refine ⟨by trivial, ?_, by trivial⟩
  by_cases hlt : now % 4294967296 > s.rtpTimestamp <;> simp only [hlt, if_true, if_false] <;> omega

/-- Witness for C5 at a concrete synced consumer. -/
def c5State : ConsumerState :=
  { c4State with paused := false, syncRequired := true }

theorem sendRtpPacket_sync_path_witness :
    (sendRtpPacket c5State c4Packet Profile.DEFAULT 99).1.seqNum = 1001 ∧
    (sendRtpPacket c5State c4Packet Profile.DEFAULT 99).1.rtpTimestamp = 5000 ∧
    (sendRtpPacket c5State c4Packet Profile.DEFAULT 99).1.syncRequired = false := by
  have h := sendRtpPacket_sync_path c5State c4Packet Profile.DEFAULT 99
    (by decide) (by decide)
  exact ⟨by rw [h.1]; decide, by rw [h.2.1]; decide, h.2.2⟩

/-- C9: a request whose method the target entity's HandleRequest switch
does not recognise falls into the default branch: it is rejected with
reason "unknown method" and the entity's state is untouched, for
Consumer, RtpSender and Room alike. -/
theorem handleRequest_unknown_method (cs : ConsumerState)
    (ss : RtpSenderState) (peers : List Nat) (req : ChannelRequest)
    (m1 m2 m3 : MethodId)
    (h1 : m1 ≠ MethodId.CONSUMER_DUMP)
    (h2 : m2 ≠ MethodId.RTP_SENDER_DUMP)
    (h3 : m3 ∉ roomHandledMethods) :
    consumerHandleRequest cs m1 =
      (cs, ChannelResponse.rejected "unknown method") ∧
    rtpSenderHandleRequest ss m2 =
      (ss, ChannelResponse.rejected "unknown method") ∧
    roomHandleRequest peers req m3 =
      (peers, ChannelResponse.rejected "unknown method") := by
  refine ⟨?_, ?_, ?_⟩
  · simp [consumerHandleRequest, h1]
  · simp [rtpSenderHandleRequest, h2]
  · cases m3 <;> simp_all [roomHandledMethods, roomHandleRequest]

def c9Consumer : ConsumerState := { c4State with enabled := false }

def c9Sender : RtpSenderState :=
  { rtpSenderId := 11, available := true, hasTransport := true }

theorem handleRequest_unknown_method_witness :
    consumerHandleRequest c9Consumer MethodId.ROOM_DUMP =
      (c9Consumer, ChannelResponse.rejected "unknown method") ∧
    rtpSenderHandleRequest c9Sender MethodId.CONSUMER_DUMP =
      (c9Sender, ChannelResponse.rejected "unknown method") ∧
    roomHandleRequest [7] { peerId := some 7, peerName := Option.none }
        MethodId.CONSUMER_DUMP =
      ([7], ChannelResponse.rejected "unknown method") :=
  handleRequest_unknown_method c9Consumer c9Sender [7]
    { peerId := some 7, peerName := Option.none }
    MethodId.ROOM_DUMP MethodId.CONSUMER_DUMP MethodId.CONSUMER_DUMP
    (by decide) (by decide) (by decide)

/-! ### C2: monotonicity of the emitted stream -/

instance (l : List RtpPacketHdr) : Decidable (emittedMonotone l) :=
  inferInstanceAs (Decidable (List.Chain' (fun a b => outStep a b = true) l))

theorem passesChecks_iff (s : ConsumerState) (p : RtpPacketHdr)
    (profile : Profile) :
    passesChecks s p profile = true ↔
      s.enabled = true ∧ s.isPaused = false ∧
        p.payloadType ∈ s.supportedCodecPayloadTypes ∧
        profile = s.effectiveProfile := by
  unfold passesChecks
  simp only [Bool.and_eq_true, Bool.not_eq_true', beq_iff_eq]
  constructor
  · rintro ⟨⟨⟨hen, hpa⟩, hmem⟩, hprof⟩
    exact ⟨hen, hpa, List.mem_of_elem_eq_true hmem, hprof⟩
  · rintro ⟨hen, hpa, hmem, hprof⟩
    exact ⟨⟨⟨hen, hpa⟩, List.elem_eq_true_of_mem hmem⟩, hprof⟩

/-- A packet failing the drop checks leaves the consumer and the packet
untouched. -/
theorem sendRtpPacket_not_passes (s : ConsumerState) (p : RtpPacketHdr)
    (profile : Profile) (now : Nat)
    (h : passesChecks s p profile = false) :
    sendRtpPacket s p profile now = (s, p) := by
  unfold sendRtpPacket
  by_cases h1 : s.enabled = false
  · rw [if_pos h1]
  · rw [if_neg h1]
    by_cases h2 : s.isPaused = true
    · rw [if_pos h2]
    · rw [if_neg h2]
      by_cases h3 : p.payloadType ∉ s.supportedCodecPayloadTypes
      · rw [if_pos h3]
      · rw [if_neg h3]
        by_cases h4 : profile ≠ s.effectiveProfile
        · rw [if_pos h4]
        · exfalso
          have hpass : passesChecks s p profile = true := by
            rw [passesChecks_iff]
            refine ⟨?_, ?_, by simpa using h3, by simpa using h4⟩
            · revert h1
              cases s.enabled <;> simp
            · revert h2
              cases s.isPaused <;> simp
          rw [hpass] at h
          cases h

/-- The last transmitted packet carries the consumer's current output
sequence number and timestamp. -/
def lastMatchesState (s : ConsumerState) : Prop :=
  ∀ p, s.transmittedPackets.getLast? = some p →
    p.seq = s.seqNum ∧ p.timestamp = s.rtpTimestamp

/-- Invariant carried across a consumer run. -/
def consumerInv (s : ConsumerState) : Prop :=
  stateWF s = true ∧ emittedMonotone s.transmittedPackets ∧ lastMatchesState s

/-- Transmitting one packet whose output values are serially in-order
with respect to the consumer's current output values preserves the
invariant. -/
theorem emitPacket_inv (s : ConsumerState) (packet : RtpPacketHdr)
    (sq ts : Nat) (hinv : consumerInv s)
    (hsq : sq < 65536) (hts : ts < 4294967296)
    (hps : packet.seq < 65536) (hpt : packet.timestamp < 4294967296)
    (hrel : isSeqHigherThan 65536 sq s.seqNum = true)
    (hrelt : tsNotLower ts s.rtpTimestamp = true) :
    consumerInv (emitPacket s packet sq ts).1 := by
  obtain ⟨hwf, hmono, hlast⟩ := hinv
  unfold emitPacket
  refine ⟨?_, ?_, ?_⟩
  · simp only [stateWF, decide_eq_true_eq]
    exact ⟨hsq, hts, hps, hpt⟩
  · refine List.Chain'.append hmono (List.chain'_singleton _) ?_
    intro x hx y hy
    simp only [List.head?_cons, Option.mem_def, Option.some.injEq] at hy
    subst hy
    obtain ⟨hxs, hxt⟩ := hlast x hx
    simp only [outStep, Bool.and_eq_true]
    exact ⟨by rw [hxs]; exact hrel, by rw [hxt]; exact hrelt⟩
  · intro q hq
    simp only [List.getLast?_concat, Option.some.injEq] at hq
    subst hq
    exact ⟨rfl, rfl⟩

theorem sendRtpPacket_emit_inv (s : ConsumerState) (p : RtpPacketHdr)
    (profile : Profile) (now : Nat)
    (hpass : passesChecks s p profile = true)
    (hinv : consumerInv s)
    (hseq : p.seq < 65536) (hts : p.timestamp < 4294967296)
    (hbranch :
      (if s.syncRequired then tsNotLower (now % 4294967296) s.rtpTimestamp
       else isSeqHigherThan 65536 p.seq s.lastRecvSeqNum &&
         tsNotLower p.timestamp s.lastRecvRtpTimestamp) = true) :
    consumerInv (sendRtpPacket s p profile now).1 := by
  obtain ⟨hen, hpa, hmem, hprof⟩ := (passesChecks_iff s p profile).mp hpass
  have hwf := hinv.1
  simp only [stateWF, decide_eq_true_eq] at hwf
  obtain ⟨hw1, hw2, hw3, hw4⟩ := hwf
  unfold sendRtpPacket
  rw [if_neg (by simp [hen]), if_neg (by simp [hpa]), if_neg (by simp [hmem]),
    if_neg (by simp [hprof])]
  cases hsy : s.syncRequired with
  | true =>
    rw [if_pos rfl]
    rw [if_pos hsy] at hbranch
    simp only [tsNotLower, serialDelta, decide_eq_true_eq] at hbranch
    refine emitPacket_inv s p _ _ hinv (by omega) (by split_ifs <;> omega)
      hseq hts ?_ ?_
    · simp only [isSeqHigherThan, serialDelta, decide_eq_true_eq]
      omega
    · simp only [tsNotLower, serialDelta, decide_eq_true_eq]
      split_ifs <;> omega
  | false =>
    rw [if_neg Bool.false_ne_true]
    rw [if_neg (by simp [hsy])] at hbranch
    simp only [Bool.and_eq_true, isSeqHigherThan, tsNotLower, serialDelta,
      decide_eq_true_eq] at hbranch
    refine emitPacket_inv s p _ _ hinv (by omega) (by omega) hseq hts ?_ ?_
    · simp only [isSeqHigherThan, serialDelta, decide_eq_true_eq]
      omega
    · simp only [tsNotLower, serialDelta, decide_eq_true_eq]
      omega

/-- One in-order event preserves the invariant. -/
theorem applyEvent_inv (s : ConsumerState) (e : ConsumerEvent)
    (hinv : consumerInv s) (hok : eventOk s e = true) :
    consumerInv (applyEvent s e) := by
  cases e with
  | recalcProfile newProfile =>
    simp only [applyEvent]
    split_ifs
    · exact hinv
    · exact hinv
  | packet p profile now =>
    simp only [applyEvent]
    by_cases hpass : passesChecks s p profile = true
    · simp only [eventOk, hpass, Bool.not_true, Bool.false_or,
        Bool.and_eq_true, decide_eq_true_eq] at hok
      exact sendRtpPacket_emit_inv s p profile now hpass hinv
        hok.1.1 hok.1.2 hok.2
    · rw [sendRtpPacket_not_passes s p profile now
        (by revert hpass; cases passesChecks s p profile <;> simp)]
      exact hinv

/-- The invariant holds across any in-order run. -/
theorem runEvents_inv (es : List ConsumerEvent) (s : ConsumerState)
    (hinv : consumerInv s) (hgood : goodRun s es = true) :
    consumerInv (runEvents s es) := by
  induction es generalizing s with
  | nil => exact hinv
  | cons e es ih =>
    simp only [goodRun, Bool.and_eq_true] at hgood
    exact ih (applyEvent s e) (applyEvent_inv s e hinv hgood.1) hgood.2

/-- An enabled, unpaused consumer mid-stream: no sync pending, last
received seq 50 and timestamp 700, output counters 1000 / 5000. -/
def c2DupState : ConsumerState :=
  { enabled := true, paused := false, sourcePaused := false,
    supportedCodecPayloadTypes := [100], effectiveProfile := Profile.DEFAULT,
    syncRequired := false, seqNum := 1000, rtpTimestamp := 5000,
    lastRecvSeqNum := 50, lastRecvRtpTimestamp := 700, outputSsrc := 2000,
    transmittedPackets := [] }

def c2DupPacket : RtpPacketHdr :=
  { ssrc := 1000, seq := 51, timestamp := 800, payloadType := 100 }

/-- The same producer packet delivered twice (a duplicate the producer
forwarded). -/
def c2DupEvents : List ConsumerEvent :=
  [ConsumerEvent.packet c2DupPacket Profile.DEFAULT 0,
   ConsumerEvent.packet c2DupPacket Profile.DEFAULT 0]

/-- C2 (counterexample): the emitted sequence numbers are NOT strictly
increasing mod 2^16 over every accepted run.  A duplicate packet passes
all drop checks again and the delta path adds seq delta 0, so the
consumer transmits two packets carrying the same sequence number 1001. -/
theorem consumer_duplicate_breaks_monotonicity :
    (runEvents c2DupState c2DupEvents).transmittedPackets.map
        RtpPacketHdr.seq = [1001, 1001] ∧
    isSeqHigherThan 65536 1001 1001 = false ∧
    ¬ emittedMonotone (runEvents c2DupState c2DupEvents).transmittedPackets := by
  refine ⟨by decide, by decide, ?_⟩
  intro h
  unfold emittedMonotone at h
  have hl : (runEvents c2DupState c2DupEvents).transmittedPackets =
      [{ ssrc := 2000, seq := 1001, timestamp := 5100, payloadType := 100 },
       { ssrc := 2000, seq := 1001, timestamp := 5100, payloadType := 100 }] := by
    decide
  rw [hl] at h
  exact absurd (List.chain'_cons.mp h).1 (by decide)

/-- C2 (amended): across any in-order run — every packet consumed on
the delta path moves the received sequence serially forward and the
received timestamp serially not backwards, and every sync consumes a
wall clock serially at-or-after the output timestamp — the emitted
sequence numbers are strictly increasing mod 2^16 and the emitted
timestamps serially non-decreasing mod 2^32, across profile switches
and sync events. -/
theorem consumer_emissions_monotone (s : ConsumerState)
    (es : List ConsumerEvent) (hwf : stateWF s = true)
    (hlog : s.transmittedPackets = []) (hgood : goodRun s es = true) :
    emittedMonotone (runEvents s es).transmittedPackets := by
  have hinv : consumerInv s := by
    refine ⟨hwf, ?_, ?_⟩
    · unfold emittedMonotone
      rw [hlog]
      exact List.chain'_nil
    · intro p hp
      rw [hlog] at hp
      cases hp
  exact (runEvents_inv es s hinv hgood).2.1

/-- A run exercising the delta path, a profile switch and the sync
path. -/
def c2WitEvents : List ConsumerEvent :=
  [ConsumerEvent.packet c2DupPacket Profile.DEFAULT 0,
   ConsumerEvent.recalcProfile Profile.LOW,
   ConsumerEvent.packet
     { ssrc := 1500, seq := 400, timestamp := 900, payloadType := 100 }
     Profile.LOW 6000]

theorem consumer_emissions_monotone_witness :
    goodRun c2DupState c2WitEvents = true ∧
    emittedMonotone (runEvents c2DupState c2WitEvents).transmittedPackets :=
  ⟨by decide,
    consumer_emissions_monotone c2DupState c2WitEvents (by decide) rfl
      (by decide)⟩

/-! ### C6: VP8 temporal-layer filtering -/

theorem seqManager_input_ok (m : SeqManager) (n input : Nat) :
    (m.input n input).2.2 = true ↔ (input % n) ∉ m.dropped := by
  unfold SeqManager.input
  split_ifs with h <;> simp [h]

theorem vp8SyncStep_no_sync (ctx : EncodingContext) (d : PayloadDescriptor)
    (hs : ctx.syncRequired = false) : vp8SyncStep ctx d = ctx := by
  unfold vp8SyncStep
  rw [hs]
  simp

theorem vp8KeyframeStep_managers (ctx : EncodingContext)
    (d : PayloadDescriptor) :
    (vp8KeyframeStep ctx d).pictureIdManager = ctx.pictureIdManager ∧
    (vp8KeyframeStep ctx d).tl0PictureIndexManager =
      ctx.tl0PictureIndexManager ∧
    (vp8KeyframeStep ctx d).targetTemporalLayer = ctx.targetTemporalLayer := by
  unfold vp8KeyframeStep
  split_ifs <;> exact ⟨rfl, rfl, rfl⟩

theorem vp8ProcessTail_managers (ctx : EncodingContext)
    (d : PayloadDescriptor) (data : List Nat) (pidOut tl0Out : Nat) :
    (vp8ProcessTail ctx d data pidOut tl0Out).1 = true ∧
    (vp8ProcessTail ctx d data pidOut tl0Out).2.1.pictureIdManager =
      ctx.pictureIdManager ∧
    (vp8ProcessTail ctx d data pidOut tl0Out).2.1.tl0PictureIndexManager =
      ctx.tl0PictureIndexManager := by
  simp only [vp8ProcessTail]
  split_ifs <;> exact ⟨by trivial, by trivial, by trivial⟩

theorem vp8ProcessInputs_spec (ctx : EncodingContext) (d : PayloadDescriptor)
    (data : List Nat) (hp : d.hasPictureId = true)
    (h0 : d.hasTl0PictureIndex = true) :
    ((vp8ProcessInputs ctx d data).1 = true ↔
      d.pictureId % 65536 ∉ ctx.pictureIdManager.dropped ∧
      d.tl0PictureIndex % 256 ∉ ctx.tl0PictureIndexManager.dropped) ∧
    (vp8ProcessInputs ctx d data).2.1.pictureIdManager =
      (ctx.pictureIdManager.input 65536 d.pictureId).1 ∧
    (d.pictureId % 65536 ∉ ctx.pictureIdManager.dropped →
      (vp8ProcessInputs ctx d data).2.1.tl0PictureIndexManager =
        (ctx.tl0PictureIndexManager.input 256 d.tl0PictureIndex).1) := by
  unfold vp8ProcessInputs
  rw [if_pos hp]
  by_cases hd1 : d.pictureId % 65536 ∈ ctx.pictureIdManager.dropped
  · have e1 : ctx.pictureIdManager.input 65536 d.pictureId =
        (ctx.pictureIdManager, 0, false) := by
      unfold SeqManager.input
      rw [if_pos hd1]
    rw [e1]
    simp only [if_pos rfl]
    refine ⟨by simp [hd1], rfl, fun hcontra => absurd hd1 hcontra⟩
  · have e1 : (ctx.pictureIdManager.input 65536 d.pictureId).2.2 = true := by
      unfold SeqManager.input
      rw [if_neg hd1]
    rw [e1]
    simp only [Bool.true_eq_false, if_false]
    unfold vp8ProcessInputsTl0
    rw [if_pos h0]
    by_cases hd2 : d.tl0PictureIndex % 256 ∈ ctx.tl0PictureIndexManager.dropped
    · have e2 :
          ({ ctx with
              pictureIdManager :=
                (ctx.pictureIdManager.input 65536 d.pictureId).1 } :
            EncodingContext).tl0PictureIndexManager.input 256
            d.tl0PictureIndex =
          (ctx.tl0PictureIndexManager, 0, false) := by
        unfold SeqManager.input
        rw [if_pos hd2]
      rw [e2]
      simp only [if_pos rfl]
      exact ⟨by simp [hd2], rfl, fun _ => rfl⟩
    · have e2 :
          (({ ctx with
              pictureIdManager :=
                (ctx.pictureIdManager.input 65536 d.pictureId).1 } :
            EncodingContext).tl0PictureIndexManager.input 256
            d.tl0PictureIndex).2.2 = true := by
        unfold SeqManager.input
        rw [if_neg hd2]
      rw [e2]
      simp only [Bool.true_eq_false, if_false]
      obtain ⟨ht1, ht2, ht3⟩ := vp8ProcessTail_managers
        { ctx with
          pictureIdManager := (ctx.pictureIdManager.input 65536 d.pictureId).1
          tl0PictureIndexManager :=
            (ctx.tl0PictureIndexManager.input 256 d.tl0PictureIndex).1 }
        d data (ctx.pictureIdManager.input 65536 d.pictureId).2.1
        (ctx.tl0PictureIndexManager.input 256 d.tl0PictureIndex).2.1
      refine ⟨?_, ?_, fun _ => ?_⟩
      · simp only [hd1, hd2, not_false_iff, and_true]
        constructor
        · intro _
          simp [hd1]
        · intro _
          exact ht1
      · exact ht2
      · exact ht3

/-- C6: for a VP8 packet carrying pictureId, tlIndex and tl0PictureIndex
whose pictureId is newer than the pictureId manager's maximum input, the
Process handler (after the key-frame step; no sync is pending) drops
both managers' inputs and returns false when the packet's temporal layer
exceeds the target, likewise when it exceeds the current layer without
the layer-sync bit; otherwise it feeds both indices through Input and
returns true unless either manager reports the value dropped. -/
theorem vp8Process_temporal_filter (ctx : EncodingContext)
    (d : PayloadDescriptor) (data : List Nat)
    (hs : ctx.syncRequired = false)
    (hp : d.hasPictureId = true) (ht : d.hasTlIndex = true)
    (h0 : d.hasTl0PictureIndex = true)
    (hnew : isSeqHigherThan 65536 d.pictureId
      ctx.pictureIdManager.maxInput = true) :
    (d.tlIndex > (vp8KeyframeStep ctx d).targetTemporalLayer →
      vp8Process ctx d data =
        (false, dropBoth (vp8KeyframeStep ctx d) d, data)) ∧
    (d.tlIndex ≤ (vp8KeyframeStep ctx d).targetTemporalLayer →
      d.tlIndex > (vp8KeyframeStep ctx d).currentTemporalLayer → d.y = 0 →
      vp8Process ctx d data =
        (false, dropBoth (vp8KeyframeStep ctx d) d, data)) ∧
    (d.tlIndex ≤ (vp8KeyframeStep ctx d).targetTemporalLayer →
      (d.tlIndex ≤ (vp8KeyframeStep ctx d).currentTemporalLayer ∨ d.y ≠ 0) →
      ((vp8Process ctx d data).1 = true ↔
        d.pictureId % 65536 ∉ ctx.pictureIdManager.dropped ∧
        d.tl0PictureIndex % 256 ∉ ctx.tl0PictureIndexManager.dropped) ∧
      (vp8Process ctx d data).2.1.pictureIdManager =
        (ctx.pictureIdManager.input 65536 d.pictureId).1 ∧
      (d.pictureId % 65536 ∉ ctx.pictureIdManager.dropped →
        (vp8Process ctx d data).2.1.tl0PictureIndexManager =
          (ctx.tl0PictureIndexManager.input 256 d.tl0PictureIndex).1)) := by
  have hpre : vp8PreCtx ctx d = vp8KeyframeStep ctx d := by
    unfold vp8PreCtx
    rw [vp8SyncStep_no_sync ctx d hs]
  obtain ⟨hm1, hm2, hm3⟩ := vp8KeyframeStep_managers ctx d
  refine ⟨?_, ?_, ?_⟩
  · intro ha
    rw [hm3] at ha
    unfold vp8Process
    rw [hpre, hm1]
    rw [if_pos (by rw [hm3]; simp [hp, ht, h0, hnew]; omega)]
  · intro hb1 hb2 hb3
    rw [hm3] at hb1
    unfold vp8Process
    rw [hpre, hm1]
    rw [if_neg (by rw [hm3]; simp [hp, ht, h0, hnew]; omega)]
    rw [if_pos (by simp [hp, ht, h0, hnew, hb3]; omega)]
  · intro hc1 hc2
    rw [hm3] at hc1
    unfold vp8Process
    rw [hpre, hm1]
    rw [if_neg (by rw [hm3]; simp [hp, ht, h0, hnew]; omega)]
    rw [if_neg (by
      simp only [hp, ht, h0, hnew, Bool.true_and, Bool.and_eq_true,
        decide_eq_true_eq, not_and]
      intro hgt hy
      rcases hc2 with h | h
      · omega
      · exact h hy)]
    have hspec := vp8ProcessInputs_spec (vp8KeyframeStep ctx d) d data hp h0
    rw [hm1, hm2] at hspec
    exact hspec

/-- Encoding context targeting temporal layer 0, with both managers
mid-stream. -/
def c6Ctx : EncodingContext :=
  { targetTemporalLayer := 0, currentTemporalLayer := 0,
    pictureIdManager := { maxInput := 4, maxOutput := 10, dropped := [] },
    tl0PictureIndexManager := { maxInput := 6, maxOutput := 3, dropped := [] },
    syncRequired := false }

/-- A temporal-layer-1 VP8 packet with pictureId 5 and tl0PictureIndex 7. -/
def c6Desc : PayloadDescriptor :=
  { extended := 1, i := 1, l := 1, t := 1, pictureId := 5,
    tl0PictureIndex := 7, tlIndex := 1, y := 0, hasPictureId := true,
    hasTlIndex := true, hasTl0PictureIndex := true }

theorem vp8Process_temporal_filter_witness :
    vp8Process c6Ctx c6Desc [144, 192, 133, 5, 7, 64] =
      (false, dropBoth (vp8KeyframeStep c6Ctx c6Desc) c6Desc,
        [144, 192, 133, 5, 7, 64]) :=
  (vp8Process_temporal_filter c6Ctx c6Desc [144, 192, 133, 5, 7, 64]
    rfl rfl rfl rfl (by decide)).1 (by decide)

/-! ### C8: closing a producer closes every subscribed consumer -/

theorem foldl_close_effects (senders : List Nat) (st : RoomState) :
    (senders.foldl rtpSenderClose st).closedSenders =
      st.closedSenders ++ senders ∧
    (senders.foldl rtpSenderClose st).notifications =
      st.notifications ++ senders.map (fun x => (x, "close")) := by
  induction senders generalizing st with
  | nil => simp
  | cons a l ih =>
    simp only [List.foldl_cons, List.map_cons]
    obtain ⟨h1, h2⟩ := ih (rtpSenderClose st a)
    rw [h1, h2]
    unfold rtpSenderClose
    simp

theorem roomMapLookup_filter_none (m : List (Nat × List Nat)) (r : Nat) :
    roomMapLookup (m.filter (fun kv => kv.1 ≠ r)) r = Option.none := by
  induction m with
  | nil => rfl
  | cons kv m ih =>
    by_cases h : kv.1 = r
    · simp [roomMapLookup, List.filter_cons, h]
    · simp [roomMapLookup, List.filter_cons, List.find?, h]

/-- C8: closing an RtpReceiver with subscribed RtpSenders invokes Close
exactly once on each sender of the snapshot copy (in set order), each
closed sender emits its "close" notification, and the receiver's entry
is gone from the fan-out map afterwards. -/
theorem producerClose_closes_consumers (st : RoomState) (receiverId : Nat)
    (senders : List Nat)
    (h : roomMapLookup st.mapRtpReceiverRtpSenders receiverId = some senders) :
    (onPeerRtpReceiverClosed st receiverId).closedSenders =
      st.closedSenders ++ senders ∧
    (onPeerRtpReceiverClosed st receiverId).notifications =
      st.notifications ++ senders.map (fun x => (x, "close")) ∧
    roomMapLookup
      (onPeerRtpReceiverClosed st receiverId).mapRtpReceiverRtpSenders
      receiverId = Option.none := by
  unfold onPeerRtpReceiverClosed
  rw [h]
  obtain ⟨h1, h2⟩ := foldl_close_effects senders st
  exact ⟨h1, h2, roomMapLookup_filter_none _ _⟩

/-- A room with two producers: receiver 1 feeds senders 10 and 11,
receiver 2 feeds sender 11. -/
def c8Room : RoomState :=
  { mapRtpReceiverRtpSenders := [(1, [10, 11]), (2, [11])],
    notifications := [], closedSenders := [] }

theorem producerClose_closes_consumers_witness :
    (onPeerRtpReceiverClosed c8Room 1).closedSenders = [10, 11] ∧
    (onPeerRtpReceiverClosed c8Room 1).notifications =
      [(10, "close"), (11, "close")] ∧
    roomMapLookup (onPeerRtpReceiverClosed c8Room 1).mapRtpReceiverRtpSenders
      1 = Option.none := by
  obtain ⟨h1, h2, h3⟩ :=
    producerClose_closes_consumers c8Room 1 [10, 11] rfl
  exact ⟨h1, h2, h3⟩

/-! ### C7: Parse followed by Encode is the identity -/

theorem set_getD_eq_self (l : List Nat) (i : Nat) (h : i < l.length) :
    l.set i (l.getD i 0) = l := by
  induction l generalizing i with
  | nil => cases h
  | cons a t ih =>
    cases i with
    | zero => rfl
    | succ j =>
      simp only [List.set_cons_succ, List.getD_cons_succ, List.cons.injEq,
        true_and]
      exact ih j (by simpa using h)

theorem getD_lt_256 (l : List Nat) (i : Nat) (hb : ∀ x ∈ l, x < 256)
    (h : i < l.length) : l.getD i 0 < 256 := by
  rw [List.getD_eq_getElem l 0 h]
  exact hb _ (List.getElem_mem h)

theorem lor_128_of_lt : ∀ x, x < 128 → Nat.lor x 128 = 128 + x := by decide

theorem vp8KeyFrameCheck_fields (data : List Nat) (o : Nat)
    (d d2 : PayloadDescriptor) (h : vp8KeyFrameCheck data o d = some d2) :
    d2.extended = d.extended ∧ d2.i = d.i ∧ d2.l = d.l ∧
    d2.hasTwoBytesPictureId = d.hasTwoBytesPictureId ∧
    d2.hasOneBytePictureId = d.hasOneBytePictureId ∧
    d2.pictureId = d.pictureId ∧
    d2.tl0PictureIndex = d.tl0PictureIndex := by
  unfold vp8KeyFrameCheck at h
  split_ifs at h <;> simp only [Option.some.injEq] at h <;> subst h <;>
    exact ⟨rfl, rfl, rfl, rfl, rfl, rfl, rfl⟩

theorem vp8ParseTlk_fields (data : List Nat) (o : Nat)
    (d d2 : PayloadDescriptor) (h : vp8ParseTlk data o d = some d2) :
    d2.extended = d.extended ∧ d2.i = d.i ∧ d2.l = d.l ∧
    d2.hasTwoBytesPictureId = d.hasTwoBytesPictureId ∧
    d2.hasOneBytePictureId = d.hasOneBytePictureId ∧
    d2.pictureId = d.pictureId ∧
    d2.tl0PictureIndex = d.tl0PictureIndex := by
  unfold vp8ParseTlk at h
  split_ifs at h
  · obtain ⟨f1, f2, f3, f4, f5, f6, f7⟩ := vp8KeyFrameCheck_fields _ _ _ _ h
    exact ⟨f1, f2, f3, f4, f5, f6, f7⟩
  · exact vp8KeyFrameCheck_fields _ _ _ _ h

theorem vp8ParseTl0_spec (data : List Nat) (o : Nat)
    (d d2 : PayloadDescriptor) (h : vp8ParseTl0 data o d = some d2) :
    d2.extended = d.extended ∧ d2.i = d.i ∧ d2.l = d.l ∧
    d2.hasTwoBytesPictureId = d.hasTwoBytesPictureId ∧
    d2.hasOneBytePictureId = d.hasOneBytePictureId ∧
    d2.pictureId = d.pictureId ∧
    (d.l = 1 → o + 2 ≤ data.length ∧
      d2.tl0PictureIndex = data.getD (o + 1) 0) := by
  unfold vp8ParseTl0 at h
  split_ifs at h with hl hlen
  · obtain ⟨f1, f2, f3, f4, f5, f6, f7⟩ := vp8ParseTlk_fields _ _ _ _ h
    exact ⟨f1, f2, f3, f4, f5, f6, fun _ => ⟨by omega, f7⟩⟩
  · obtain ⟨f1, f2, f3, f4, f5, f6, _⟩ := vp8ParseTlk_fields _ _ _ _ h
    exact ⟨f1, f2, f3, f4, f5, f6, fun hc => absurd hc hl⟩

/-- C7: on every buffer VP8::Parse accepts, Encode (hence Restore) with
the parsed pictureId and tl0PictureIndex writes back exactly the bytes
Parse read: the descriptor region is byte-identical. -/
theorem vp8Parse_encode_roundtrip (data : List Nat) (d : PayloadDescriptor)
    (hb : ∀ x ∈ data, x < 256) (h : vp8Parse data = some d) :
    vp8Encode d d.pictureId d.tl0PictureIndex data = data := by
  unfold vp8Parse at h
  split_ifs at h with e1 e2 e3
  unfold vp8ParsePictureId at h
  split_ifs at h with hi hl3 hm hl4
  · -- two-byte pictureId at offsets 2-3, tl0 at 4
    obtain ⟨f1, f2, f3, f4, f5, f6, f7⟩ := vp8ParseTl0_spec data 3 _ d h
    have f1' : d.extended = data.getD 0 0 / 128 % 2 := f1
    have f2' : d.i = data.getD 1 0 / 128 % 2 := f2
    have f3' : d.l = data.getD 1 0 / 64 % 2 := f3
    have f4' : d.hasTwoBytesPictureId = true := f4
    have f6' : d.pictureId = data.getD 2 0 % 128 * 256 + data.getD 3 0 := f6
    have hi' : data.getD 1 0 / 128 % 2 = 1 := hi
    have hm' : data.getD 2 0 / 128 % 2 = 1 := hm
    have h2lt : data.getD 2 0 < 256 := getD_lt_256 data 2 hb (by omega)
    have h3lt : data.getD 3 0 < 256 := getD_lt_256 data 3 hb (by omega)
    have hv1 : Nat.lor (d.pictureId % 65536 / 256) 128 = data.getD 2 0 := by
      have hsm : d.pictureId % 65536 = d.pictureId := by omega
      rw [hsm]
      have hdiv : d.pictureId / 256 = data.getD 2 0 % 128 := by omega
      rw [hdiv, lor_128_of_lt _ (by omega)]
      omega
    have hv2 : d.pictureId % 65536 % 256 = data.getD 3 0 := by omega
    have hpid : vp8EncodePid d d.pictureId data = (data, 4) := by
      unfold vp8EncodePid
      rw [if_pos (by omega), if_pos f4', hv1,
        set_getD_eq_self data 2 (by omega), hv2,
        set_getD_eq_self data 3 (by omega)]
    unfold vp8Encode
    rw [if_neg (by omega)]
    by_cases hld : d.l = 1
    · obtain ⟨hlen5, htl0⟩ :=
        f7 (by show data.getD 1 0 / 64 % 2 = 1; omega)
      have htl4 : d.tl0PictureIndex = data.getD 4 0 := htl0
      have h4lt : data.getD 4 0 < 256 := getD_lt_256 data 4 hb (by omega)
      have hv3 : d.tl0PictureIndex % 256 = data.getD 4 0 := by omega
      rw [if_pos hld, hpid, hv3]
      exact set_getD_eq_self data 4 (by omega)
    · rw [if_neg hld, hpid]
  · -- one-byte pictureId at offset 2, tl0 at 3
    obtain ⟨f1, f2, f3, f4, f5, f6, f7⟩ := vp8ParseTl0_spec data 2 _ d h
    have f1' : d.extended = data.getD 0 0 / 128 % 2 := f1
    have f2' : d.i = data.getD 1 0 / 128 % 2 := f2
    have f3' : d.l = data.getD 1 0 / 64 % 2 := f3
    have f4' : d.hasTwoBytesPictureId = false := f4
    have f5' : d.hasOneBytePictureId = true := f5
    have f6' : d.pictureId = data.getD 2 0 % 128 := f6
    have hi' : data.getD 1 0 / 128 % 2 = 1 := hi
    have hm' : ¬ data.getD 2 0 / 128 % 2 = 1 := hm
    have h2lt : data.getD 2 0 < 256 := getD_lt_256 data 2 hb (by omega)
    have hv1 : d.pictureId % 256 = data.getD 2 0 := by omega
    have hpid : vp8EncodePid d d.pictureId data = (data, 3) := by
      unfold vp8EncodePid
      rw [if_pos (by omega), if_neg (by rw [f4']; exact Bool.false_ne_true),
        if_pos f5', hv1, set_getD_eq_self data 2 (by omega)]
    unfold vp8Encode
    rw [if_neg (by omega)]
    by_cases hld : d.l = 1
    · obtain ⟨hlen4, htl0⟩ :=
        f7 (by show data.getD 1 0 / 64 % 2 = 1; omega)
      have htl3 : d.tl0PictureIndex = data.getD 3 0 := htl0
      have h3lt : data.getD 3 0 < 256 := getD_lt_256 data 3 hb (by omega)
      have hv3 : d.tl0PictureIndex % 256 = data.getD 3 0 := by omega
      rw [if_pos hld, hpid, hv3]
      exact set_getD_eq_self data 3 (by omega)
    · rw [if_neg hld, hpid]
  · -- no pictureId, tl0 at 2
    obtain ⟨f1, f2, f3, f4, f5, f6, f7⟩ := vp8ParseTl0_spec data 1 _ d h
    have f1' : d.extended = data.getD 0 0 / 128 % 2 := f1
    have f2' : d.i = data.getD 1 0 / 128 % 2 := f2
    have f3' : d.l = data.getD 1 0 / 64 % 2 := f3
    have hi' : ¬ data.getD 1 0 / 128 % 2 = 1 := hi
    have hpid : vp8EncodePid d d.pictureId data = (data, 2) := by
      unfold vp8EncodePid
      rw [if_neg (by omega)]
    unfold vp8Encode
    rw [if_neg (by omega)]
    by_cases hld : d.l = 1
    · obtain ⟨hlen3, htl0⟩ :=
        f7 (by show data.getD 1 0 / 64 % 2 = 1; omega)
      have htl2 : d.tl0PictureIndex = data.getD 2 0 := htl0
      have h2lt : data.getD 2 0 < 256 := getD_lt_256 data 2 hb (by omega)
      have hv3 : d.tl0PictureIndex % 256 = data.getD 2 0 := by omega
      rw [if_pos hld, hpid, hv3]
      exact set_getD_eq_self data 2 (by omega)
    · rw [if_neg hld, hpid]

/-- A 7-byte VP8 payload: X|S header, I|L|T flags, two-byte pictureId
1346, tl0PictureIndex 7, TLK byte (layer 1, layer-sync), key-frame
payload byte. -/
def c7Data : List Nat := [144, 224, 133, 66, 7, 96, 0]

def c7Desc : PayloadDescriptor :=
  { extended := 1, nonReference := 0, start := 1, partitionIndex := 0,
    i := 1, l := 1, t := 1, k := 0, pictureId := 1346, tl0PictureIndex := 7,
    tlIndex := 1, y := 1, keyIndex := 0, isKeyFrame := true,
    hasPictureId := true, hasOneBytePictureId := false,
    hasTwoBytesPictureId := true, hasTl0PictureIndex := true,
    hasTlIndex := true }

theorem vp8Parse_encode_roundtrip_witness :
    vp8Parse c7Data = some c7Desc ∧
    vp8Encode c7Desc c7Desc.pictureId c7Desc.tl0PictureIndex c7Data =
      c7Data :=
  ⟨by decide,
    vp8Parse_encode_roundtrip c7Data c7Desc (by decide) (by decide)⟩
